import Mathlib

/-!
# EthioStore conversational-commerce bot — verification of the intake/scheduler core

Shallow embedding of the product-intake state machine, album aggregator,
publish scheduler and caption renderer of the EthioStore Telegram bot
(`src/features/products.py`, `src/features/scheduler.py`,
`src/utils/helpers.py`, `src/database/db.py`), together with proofs of the
behavioural properties stated in the specification.

Modelling conventions:
* clock times are natural numbers counting seconds from an arbitrary
  midnight (so `now / 86400` is the current day and `now % 86400` the
  time of day), matching `datetime.now()` / `timedelta` arithmetic at
  second granularity (the code zeroes `second`/`microsecond` on the
  computed target, and only comparisons and whole-day shifts occur);
* Python dicts keyed by strings become association lists
  (`List (String × _)`), Python sets become duplicate-free lists;
* Python float prices become `PyFloat` (an exact rational, an infinity
  or NaN); `float(...)` parsing follows Python's grammar for signed
  decimals with optional fraction, exponent and underscore separators
  plus the `nan`/`inf` forms, and the guards compare with IEEE semantics
  (NaN compares false with everything);
* fallible code returns `Option` (a `none` models a raised-and-caught
  exception leaving the conversation state untouched).
-/

namespace EthioStore

/-! ## Renderer helpers (`src/utils/helpers.py`) -/

/-- Python `str.strip()` with no argument: remove leading and trailing
whitespace. -/
def pyStrip (s : String) : String :=
  String.mk
    (((s.toList.dropWhile Char.isWhitespace).reverse.dropWhile
      Char.isWhitespace).reverse)

/-- Python `s.replace(',', '')`: every comma dropped. -/
def removeCommas (s : String) : String :=
  String.mk (s.toList.filter (fun c => c != ','))

/-- Split a character list at every occurrence of `sep`, Python
`str.split(sep)` semantics (`"a:b" → ["a", "b"]`, `"" → [""]`). -/
def splitChar (sep : Char) (l : List Char) : List (List Char) :=
  l.foldr
    (fun c acc =>
      if c = sep then [] :: acc
      else
        match acc with
        | [] => [[c]]
        | h :: t => (c :: h) :: t)
    [[]]

/-- Python `int(s)` on an unsigned decimal digit run: all characters must be
digits and there must be at least one; anything else raises `ValueError`. -/
def strToNat? (l : List Char) : Option Nat :=
  if !l.isEmpty && l.all Char.isDigit then
    some (l.foldl (fun a c => a * 10 + (c.toNat - 48)) 0)
  else none

/-- Characters escaped by `escape_markdown` (helpers.py:370), in source order. -/
def special_chars : List String :=
  ["_", "*", "[", "]", "~", "`", ">", "#", "+", "=", "|", "\x7b", "\x7d", "!"]

/-- `escape_markdown` (helpers.py:363): `None` becomes `""`; otherwise each
special character is replaced, in list order, by a backslash-prefixed copy. -/
def escape_markdown (text : Option String) : String :=
  match text with
  | none => ""
  | some t => special_chars.foldl (fun s c => s.replace c ("\\" ++ c)) t

/-- Insert a comma after every third digit of a reversed digit list. -/
def groupDigitsAux : List Char → List Char
  | a :: b :: c :: d :: rest => a :: b :: c :: ',' :: groupDigitsAux (d :: rest)
  | l => l

/-- Comma-group the decimal digits of the integer part, three at a time from
the right (the `,` flag of Python's format spec). Works on the digit string. -/
def groupDigits (s : String) : String :=
  String.mk (groupDigitsAux s.toList.reverse).reverse

/-- `format_price` (helpers.py:9): Python ``f"{price:,.2f} Birr"`` — the price
rounded to two decimals, thousands separated by commas, suffixed with
`" Birr"`. Rounding is modelled as round-half-up on the rational value. -/
def format_price (price : ℚ) : String :=
  let cents : ℤ := Rat.floor (price * 100 + 1 / 2)
  let a := cents.natAbs
  let ip := a / 100
  let fp := a % 100
  let sign := if cents < 0 then "-" else ""
  sign ++ groupDigits (toString ip) ++ "." ++
    (if fp < 10 then "0" else "") ++ toString fp ++ " Birr"

/-- Python truthiness of an optional string (`None` and `""` are falsy). -/
def truthyStr : Option String → Bool
  | none => false
  | some s => !s.isEmpty

/-- Python truthiness of an optional number (`None` and `0` are falsy). -/
def truthyNum : Option ℚ → Bool
  | none => false
  | some q => q != 0

/-- Python `str.title()` as used on field labels: the first letter of every
alphabetic run is uppercased, the rest lowercased. -/
def titleCase (s : String) : String :=
  String.mk ((s.toList.foldl
    (fun (acc : List Char × Bool) c =>
      if c.isAlpha then
        ((if acc.2 then c.toLower else c.toUpper) :: acc.1, true)
      else (c :: acc.1, false))
    ([], false)).1.reverse)

/-- Product type tag (`product_type` draft attribute / `Product.product_type`). -/
inductive ProductType
  | standard
  | custom_description
deriving Repr, DecidableEq

/-- `format_product_caption` (helpers.py:275). The `engagement_stats`
argument of the source is omitted: the function body never reads it. -/
def format_product_caption (title description : Option String) (price : Option ℚ)
    (category seller_name seller_phone : Option String)
    (product_type : ProductType) (category_fields : List (String × String))
    (for_channel : Bool) : String :=
  match product_type with
  | .custom_description =>
    if for_channel then
      -- For channel posts, custom descriptions show ONLY the description text
      escape_markdown description
    else
      let caption :=
        if truthyStr title then
          "🛍️ **" ++ escape_markdown title ++ "**\n" ++ "━━━━━━━━━━━━━━━━━━━━\n\n"
        else ""
      let caption := caption ++
        (if truthyNum price then
          "💰 **" ++ escape_markdown (some (format_price (price.getD 0))) ++ "**\n\n"
        else "")
      let caption := caption ++ escape_markdown description
      let caption := caption ++
        (if truthyStr seller_name || truthyStr seller_phone then
          "\n\n" ++
          (if truthyStr seller_name then
            "👤 **" ++ escape_markdown seller_name ++ "**\n" else "") ++
          (if truthyStr seller_phone then
            "📞 " ++ escape_markdown seller_phone ++ "\n" else "")
        else "")
      caption
  | .standard =>
    let caption := "🛍️ **" ++ escape_markdown title ++ "**\n" ++ "━━━━━━━━━━━━━━━━━━━━\n\n"
    let caption := caption ++
      (if truthyStr description then escape_markdown description ++ "\n\n" else "")
    let caption := caption ++
      (if !category_fields.isEmpty then
        (category_fields.foldl
          (fun acc fv =>
            acc ++ "• **" ++ titleCase (fv.1.replace "_" " ") ++ "**: " ++
              escape_markdown (some fv.2) ++ "\n")
          "") ++ "\n"
      else "")
    let caption := caption ++
      (if truthyNum price then
        "💰 **" ++ escape_markdown (some (format_price (price.getD 0))) ++ "**\n"
      else "")
    let caption := caption ++
      (if truthyStr category then "📂 " ++ escape_markdown category ++ "\n" else "")
    let caption := caption ++
      (if truthyStr seller_name || truthyStr seller_phone then
        "\n" ++
        (if truthyStr seller_name then
          "👤 **" ++ escape_markdown seller_name ++ "**\n" else "") ++
        (if truthyStr seller_phone then
          "📞 " ++ escape_markdown seller_phone ++ "\n" else "")
      else "")
    caption

/-! ## Next-fire computation (`src/utils/helpers.py:236`) -/

/-- The `hour, minute = map(int, post_time_str.split(':'))` parse inside
`calculate_next_post_time`, whose `try` block falls back to 9:00 on any
parse failure. `int` is modelled on unsigned decimal digit strings. -/
def parsePostTime (post_time_str : String) : Nat × Nat :=
  match splitChar ':' post_time_str.toList with
  | [h, m] =>
    match strToNat? h, strToNat? m with
    | some hv, some mv => (hv, mv)
    | _, _ => (9, 0)
  | _ => (9, 0)

/-- `calculate_next_post_time` (helpers.py:236): today's occurrence of the
post time; if it is not strictly in the future, shift one day; then add
`interval_days` days. Time is seconds since an arbitrary midnight. -/
def calculate_next_post_time (interval_days : Nat) (post_time_str : String)
    (now : Nat) : Nat :=
  let hm := parsePostTime post_time_str
  let next_post := (now / 86400) * 86400 + hm.1 * 3600 + hm.2 * 60
  let next_post := if next_post ≤ now then next_post + 86400 else next_post
  next_post + interval_days * 86400

/-- Modelled from the spec (§4.4 next-fire algorithm, stated in the spec's own
words, for comparison with `calculate_next_post_time`): compute today's
occurrence of `postTime`; if that occurrence is not strictly in the future,
roll to tomorrow's occurrence; then add `intervalDays` to that. -/
def specNextFire (intervalDays hour minute now : Nat) : Nat :=
  let todayOcc := (now / 86400) * 86400 + hour * 3600 + minute * 60
  let base := if now < todayOcc then todayOcc else todayOcc + 86400
  base + intervalDays * 86400

/-! ## Price parsing (Python `float` on the cleaned price input) -/

/-- A Python `float` value as far as the price guards can distinguish it:
a finite value (kept exact as a rational), the two infinities, or NaN. -/
inductive PyFloat where
  | finite (val : ℚ)
  | inf
  | ninf
  | nan
deriving Repr, DecidableEq

/-- Python `x <= y` for a float `x` against a finite bound: NaN compares
false with everything, `inf <= y` is false, `-inf <= y` is true. -/
def PyFloat.leRat (x : PyFloat) (y : ℚ) : Bool :=
  match x with
  | .finite v => decide (v ≤ y)
  | .inf => false
  | .ninf => true
  | .nan => false

/-- Python `x > y` for a float `x` against a finite bound: NaN compares
false with everything, `inf > y` is true, `-inf > y` is false. -/
def PyFloat.gtRat (x : PyFloat) (y : ℚ) : Bool :=
  match x with
  | .finite v => decide (y < v)
  | .inf => true
  | .ninf => false
  | .nan => false

/-- Python `digitpart`: `digit (['_'] digit)*` — decimal digits with single
underscores allowed only between digits.  Accumulates (value, digit count);
the caller guarantees the first character is a digit. -/
def digitPartAux : List Char → Nat → Nat → Option (Nat × Nat)
  | [], acc, n => some (acc, n)
  | c :: rest, acc, n =>
    if c.isDigit then digitPartAux rest (acc * 10 + (c.toNat - 48)) (n + 1)
    else if c = '_' then
      match rest with
      | [] => none
      | c2 :: rest2 =>
        if c2.isDigit then digitPartAux rest2 (acc * 10 + (c2.toNat - 48)) (n + 1)
        else none
    else none

/-- Python `digitpart` entry point: nonempty, starts (and by
`digitPartAux` also ends) with a digit. -/
def digitPart? (l : List Char) : Option (Nat × Nat) :=
  match l with
  | [] => none
  | c :: _ => if c.isDigit then digitPartAux l 0 0 else none

/-- Python float `exponent` after the `e`/`E`: optional sign then a
digitpart; returns (exponent is negative, exponent value). -/
def parseExponent? (l : List Char) : Option (Bool × Nat) :=
  let signed : Bool × List Char :=
    match l with
    | [] => (false, [])
    | c :: r =>
      if c = '-' then (true, r)
      else if c = '+' then (false, r)
      else (false, l)
  match digitPart? signed.2 with
  | some (v, _) => some (signed.1, v)
  | none => none

/-- Apply a parsed exponent suffix to a mantissa. -/
def applyExp? (m : ℚ) (l : List Char) : Option ℚ :=
  match parseExponent? l with
  | none => none
  | some (negE, e) => some (if negE then m / 10 ^ e else m * 10 ^ e)

/-- Mantissa from integer and fractional digit runs: at least one digit
overall, each nonempty run a valid digitpart. -/
def intFracVal? (intChars fracChars : List Char) : Option ℚ :=
  if intChars.isEmpty && fracChars.isEmpty then none
  else if intChars.isEmpty then
    match digitPart? fracChars with
    | some (fv, fn) => some ((fv : ℚ) / 10 ^ fn)
    | none => none
  else if fracChars.isEmpty then
    match digitPart? intChars with
    | some (iv, _) => some ((iv : ℚ))
    | none => none
  else
    match digitPart? intChars, digitPart? fracChars with
    | some (iv, _), some (fv, fn) => some ((iv : ℚ) + (fv : ℚ) / 10 ^ fn)
    | _, _ => none

/-- Python `floatnumber` after the optional sign: `digitpart`, optional
`.` and fractional `digitpart`, optional `e`/`E` exponent. `intChars` is
the leading digit/underscore run, `rest1` everything after it. -/
def mantissaExp? (intChars rest1 : List Char) : Option ℚ :=
  match rest1 with
  | [] =>
    match digitPart? intChars with
    | some (v, _) => some ((v : ℚ))
    | none => none
  | c :: r2 =>
    if c = '.' then
      let fracChars := r2.takeWhile (fun ch => ch.isDigit || ch = '_')
      let rest2 := r2.dropWhile (fun ch => ch.isDigit || ch = '_')
      match intFracVal? intChars fracChars with
      | none => none
      | some m =>
        match rest2 with
        | [] => some m
        | e :: r3 => if e = 'e' ∨ e = 'E' then applyExp? m r3 else none
    else if c = 'e' ∨ c = 'E' then
      match digitPart? intChars with
      | some (v, _) => applyExp? ((v : ℚ)) r2
      | none => none
    else none

/-- Python `float(s)`: optional sign, then either a case-insensitive
`nan`/`inf`/`infinity` or a decimal literal with optional fraction,
exponent and underscore digit separators; anything else raises
`ValueError`, modelled as `none`.  Finite values are kept as exact
rationals: binary64 rounding, overflow to `inf` and underflow to `0.0`
(which affect only magnitudes beyond 1e308 / below 1e-307, far outside
the price guards' thresholds), and non-ASCII digits are not modelled. -/
def parsePyFloat? (s : String) : Option PyFloat :=
  let chars := s.toList
  let signed : Bool × List Char :=
    match chars with
    | [] => (false, [])
    | c :: r =>
      if c = '-' then (true, r)
      else if c = '+' then (false, r)
      else (false, chars)
  let neg := signed.1
  let body := signed.2
  let lower := body.map Char.toLower
  if lower = ['n', 'a', 'n'] then some .nan
  else if lower = ['i', 'n', 'f'] ∨ lower = ['i', 'n', 'f', 'i', 'n', 'i', 't', 'y'] then
    some (if neg then .ninf else .inf)
  else
    let intChars := body.takeWhile (fun ch => ch.isDigit || ch = '_')
    let rest1 := body.dropWhile (fun ch => ch.isDigit || ch = '_')
    match mantissaExp? intChars rest1 with
    | none => none
    | some m => some (.finite (if neg then -m else m))

/-! ## Conversation state machine data (`src/features/products.py`) -/

/-- `ProductStates` (products.py:200): the FSM states of product creation. -/
inductive ProdState
  | waiting_product_type
  | waiting_category
  | waiting_photo
  | waiting_main_image
  | waiting_title
  | waiting_description
  | waiting_price
  | waiting_category_fields
  | confirming
  | post_action
deriving Repr, DecidableEq

/-- One entry of the draft's `collected_photos` list (products.py:452,520). -/
structure CollectedPhoto where
  original_path : String
  file_id : String
  media_group_id : Option String
deriving Repr, DecidableEq

/-- One entry of the transient `album_buffer` (products.py:437); the
`message` field of the source dict is used only to address the reply and
carries no draft data. -/
structure BufferedPhoto where
  original_path : String
  file_id : String
deriving Repr, DecidableEq

/-- The per-user FSM data bag (`state.get_data()` / `state.update_data`).
Keys absent from the dict are `none` / `[]`, matching the `data.get(...)`
defaults used by the handlers. -/
structure Draft where
  product_type : ProductType := .standard
  category : Option String := none
  collected_photos : List CollectedPhoto := []
  photo_path : Option String := none
  original_photo_path : Option String := none
  main_image_index : Option Nat := none
  all_images : List String := []
  all_original_images : List String := []
  title : Option String := none
  description : Option String := none
  price : Option PyFloat := none
  category_fields : List (String × String) := []
  current_field_index : Option Nat := none
  field_values : List (String × String) := []
deriving Repr, DecidableEq

/-- `get_category_fields` (products.py:902): fixed per-category field lists,
in prompt (insertion) order. -/
def get_category_fields (category : String) : List (String × String) :=
  if category = "laptops" then
    [("brand", "Brand (e.g., HP, Dell, MacBook)"),
     ("model", "Model"),
     ("processor", "Processor (e.g., Intel i7, AMD Ryzen 7)"),
     ("ram", "RAM (e.g., 8GB, 16GB)"),
     ("storage", "Storage (e.g., 256GB SSD, 1TB HDD)"),
     ("condition", "Condition (e.g., Excellent, Good, Fair)")]
  else if category = "phones" then
    [("brand", "Brand (e.g., iPhone, Samsung, Huawei)"),
     ("model", "Model (e.g., iPhone 15 Pro, Galaxy S24)"),
     ("storage", "Storage (e.g., 128GB, 256GB)"),
     ("condition", "Condition (e.g., Excellent, Good, Fair)"),
     ("battery", "Battery Health (e.g., 95%, 87%)")]
  else if category = "cars" then
    [("brand", "Brand (e.g., Toyota, Honda, BMW)"),
     ("model", "Model (e.g., Corolla, Civic, X5)"),
     ("year", "Year (e.g., 2020, 2019)"),
     ("mileage", "Mileage (e.g., 50,000 km)"),
     ("fuel_type", "Fuel Type (e.g., Gasoline, Diesel, Electric)"),
     ("condition", "Condition (e.g., Excellent, Good, Fair)")]
  else if category = "houses" then
    [("type", "Type (e.g., Apartment, House, Villa)"),
     ("bedrooms", "Bedrooms (e.g., 2, 3, 4+)"),
     ("location", "Location/Area"),
     ("size", "Size (e.g., 120 sqm, 200 sqm)"),
     ("condition", "Condition (e.g., Excellent, Good, Needs Renovation)")]
  else []

/-! ## Album aggregator (`album_buffer` / `album_tasks_scheduled`, products.py:27) -/

/-- Dict read: `album_buffer.get(group_id)`. -/
def bufGet (buf : List (String × List BufferedPhoto)) (gid : String) :
    Option (List BufferedPhoto) :=
  List.lookup gid buf

/-- `album_buffer[gid] = []` (if absent) followed by `album_buffer[gid].append(p)`:
the photo is appended to the group's list, new keys going to the end of the
dict in Python insertion order. -/
def bufAppend (buf : List (String × List BufferedPhoto)) (gid : String)
    (p : BufferedPhoto) : List (String × List BufferedPhoto) :=
  match buf with
  | [] => [(gid, [p])]
  | (k, ps) :: rest =>
    if k = gid then (k, ps ++ [p]) :: rest
    else (k, ps) :: bufAppend rest gid p

/-- `del album_buffer[group_id]`. -/
def bufErase (buf : List (String × List BufferedPhoto)) (gid : String) :
    List (String × List BufferedPhoto) :=
  buf.filter (fun kv => kv.1 != gid)

/-- `album_tasks_scheduled.add(gid)` guarded by the `not in` check
(products.py:446): adds the id only when absent. -/
def schedAdd (s : List String) (gid : String) : List String :=
  if gid ∈ s then s else s ++ [gid]

/-- `album_tasks_scheduled.discard(gid)`: removes the id if present. -/
def schedDiscard (s : List String) (gid : String) : List String :=
  s.filter (fun g => g != gid)

/-- The process-wide aggregator state plus the photographing user's FSM data:
the two module-level containers of products.py:29-32 and the draft they
merge into. -/
structure AlbumState where
  album_buffer : List (String × List BufferedPhoto) := []
  album_tasks_scheduled : List String := []
  draft : Draft := {}
deriving Repr, DecidableEq

/-- `product_photo_received` (products.py:396), state-relevant behaviour of
one photo-arrival event: the downloaded photo either joins the album buffer
under its `media_group_id` — arming at most one `_process_album_later` task
per group id — or, with no group id, is appended directly to the draft's
`collected_photos`.  The handler computes `remaining = max(0, 8 - len)` only
for the confirmation text; no capacity check guards the append. -/
def product_photo_received (s : AlbumState) (p : BufferedPhoto)
    (media_group_id : Option String) : AlbumState :=
  match media_group_id with
  | some gid =>
    { s with
        album_buffer := bufAppend s.album_buffer gid p,
        album_tasks_scheduled := schedAdd s.album_tasks_scheduled gid }
  | none =>
    { s with
        draft := { s.draft with
          collected_photos :=
            s.draft.collected_photos ++ [⟨p.original_path, p.file_id, none⟩] } }

/-- `_process_album_later` (products.py:496), the body that runs when the
debounce timer fires: an empty or missing buffer is a no-op apart from
clearing the scheduled flag; otherwise the whole buffered album is merged
into `collected_photos` in arrival order, the buffer entry is deleted and
the scheduled flag cleared. -/
def process_album_later (s : AlbumState) (gid : String) : AlbumState :=
  match bufGet s.album_buffer gid with
  | none =>
    { s with album_tasks_scheduled := schedDiscard s.album_tasks_scheduled gid }
  | some photos =>
    if photos.isEmpty then
      { s with album_tasks_scheduled := schedDiscard s.album_tasks_scheduled gid }
    else
      { album_buffer := bufErase s.album_buffer gid,
        album_tasks_scheduled := schedDiscard s.album_tasks_scheduled gid,
        draft := { s.draft with
          collected_photos := s.draft.collected_photos ++
            photos.map (fun p => ⟨p.original_path, p.file_id, some gid⟩) } }

/-- A whole sequence of photo arrivals for one batch id, in arrival order. -/
def albumArrivals (s : AlbumState) (gid : String) (ps : List BufferedPhoto) :
    AlbumState :=
  ps.foldl (fun st p => product_photo_received st p (some gid)) s

/-! ## Done-adding-photos and main-image selection (products.py:335-714) -/

/-- `process_single_photo` (products.py:335).  `msg_photo` is the
`message.photo` attribute of the message the handler receives (`none` models
Python `None`, carried by any non-photo message); the function starts with
`photo = message.photo[-1]`, which raises on `None` or an empty list —
modelled as `none`, the raised-and-caught case.  `wm` is the watermark
collaborator `add_watermark(path, label, out)` (spec §6 image transform) and
the downloaded copy of a photo is identified with its source path. -/
def process_single_photo (msg_photo : Option (List String)) (wm : String → String)
    (d : Draft) : Option (Draft × ProdState) :=
  match msg_photo with
  | none => none
  | some photos =>
    match photos.getLast? with
    | none => none
    | some file_path =>
      let watermarked_path := wm file_path
      let d' := { d with
        photo_path := some watermarked_path,
        main_image_index := some 0,
        all_images := [watermarked_path],
        all_original_images := [file_path] }
      match d.product_type with
      | .custom_description => some (d', .waiting_description)
      | .standard => some (d', .waiting_title)

/-- `process_multiple_photos` (products.py:563): watermark every collected
photo (keeping only results that exist on disk, tracked by `exi`), store the
parallel stamped/unstamped lists and move to main-image selection; if no
watermarked file survives, report failure and change nothing (`none`). -/
def process_multiple_photos (wm : String → String) (exi : String → Bool)
    (d : Draft) (collected : List CollectedPhoto) : Option (Draft × ProdState) :=
  let pairs := collected.filterMap (fun pd =>
    let watermarked_path := wm pd.original_path
    if !watermarked_path.isEmpty && exi watermarked_path then
      some (watermarked_path, pd.original_path)
    else none)
  if pairs.isEmpty then none
  else
    some ({ d with
        all_images := pairs.map Prod.fst,
        all_original_images := pairs.map Prod.snd },
      .waiting_main_image)

/-- Outcome of `handle_photos_done`: either the draft advances, or an alert
is shown and the draft and conversation state are left untouched. -/
inductive PhotosDoneOutcome
  | ok (d : Draft) (st : ProdState)
  | emptyAlbumAlert
  | errorAlert
deriving Repr, DecidableEq

/-- `handle_photos_done` (products.py:636): zero collected photos → the
"You haven't sent any photos yet." alert; exactly one → `process_single_photo`
on the callback's message; more → `process_multiple_photos`.  Any exception
inside is caught and surfaced as an error alert with no state change.
`cb_msg_photo` is the `photo` attribute of `callback.message` — the bot's
own prompt message the Done button is attached to. -/
def handle_photos_done (cb_msg_photo : Option (List String)) (wm : String → String)
    (exi : String → Bool) (d : Draft) : PhotosDoneOutcome :=
  if d.collected_photos.isEmpty then .emptyAlbumAlert
  else if d.collected_photos.length = 1 then
    match process_single_photo cb_msg_photo wm d with
    | none => .errorAlert
    | some (d', st) => .ok d' st
  else
    match process_multiple_photos wm exi d d.collected_photos with
    | none => .errorAlert
    | some (d', st) => .ok d' st

/-- `handle_main_image_selection` (products.py:665).  The result triple is
(draft, conversation state, error-notice flag): the flag is `true` exactly
when the "❌ Invalid selection" alert is shown, in which case draft and
state are returned unchanged.  The source indexes `all_images` and
`all_original_images` with the same index under the §3 equal-length
invariant; the embedding totalises the lookups with a `""` default. -/
def handle_main_image_selection (d : Draft) (main_index : ℤ) :
    Draft × ProdState × Bool :=
  if main_index < 0 ∨ (d.all_images.length : ℤ) ≤ main_index then
    (d, .waiting_main_image, true)
  else
    let i := main_index.toNat
    let d' := { d with
      photo_path := some (d.all_images.getD i ""),
      original_photo_path := some (d.all_original_images.getD i ""),
      main_image_index := some i }
    match d.product_type with
    | .custom_description => (d', .waiting_description, false)
    | .standard => (d', .waiting_title, false)

/-! ## Text-field handlers (products.py:725-900)

Each handler returns (draft, conversation state, error-reprompt flag): the
flag is `true` exactly when a validation error message is sent, in which
case the draft and the state are returned unchanged (the source `return`s
before any `update_data`/`set_state`). -/

/-- `product_title_received` (products.py:725): the stripped title must have
between 3 and 200 characters; on success it is stored and the flow advances
to the price step (custom-description) or the description step (standard). -/
def product_title_received (d : Draft) (text : String) :
    Draft × ProdState × Bool :=
  let title := pyStrip text
  if title.length < 3 then (d, .waiting_title, true)
  else if title.length > 200 then (d, .waiting_title, true)
  else
    let d' := { d with title := some title }
    match d.product_type with
    | .custom_description => (d', .waiting_price, false)
    | .standard => (d', .waiting_description, false)

/-- `product_description_received` (products.py:764): the stripped
description may have at most 1000 characters; on success it is stored and
the flow advances to the title step (custom-description) or the price step
(standard). -/
def product_description_received (d : Draft) (text : String) :
    Draft × ProdState × Bool :=
  let description := pyStrip text
  if description.length > 1000 then (d, .waiting_description, true)
  else
    let d' := { d with description := some description }
    match d.product_type with
    | .custom_description => (d', .waiting_title, false)
    | .standard => (d', .waiting_price, false)

/-- `show_custom_description_preview` (products.py:798): reads
`data["photo_path"]` and `data["description"]` (a missing key raises
`KeyError`, caught by the handler's `try` → `none`, state untouched);
otherwise the preview is sent and the state becomes `confirming`. -/
def show_custom_description_preview (d : Draft) : Option ProdState :=
  if d.photo_path.isNone then none
  else if d.description.isNone then none
  else some .confirming

/-- `show_product_preview` (products.py:1011): reads `data["photo_path"]`
and, for standard products, `data["title"]` and `data["price"]` (missing →
`KeyError`, caught → `none`); otherwise the state becomes `confirming`. -/
def show_product_preview (d : Draft) : Option ProdState :=
  if d.photo_path.isNone then none
  else
    match d.product_type with
    | .custom_description =>
      if d.description.isNone then none else some .confirming
    | .standard =>
      if d.title.isNone then none
      else if d.price.isNone then none
      else some .confirming

/-- `show_category_fields` (products.py:938): with no fields for the
category, fall through to the preview; otherwise store the field list,
reset the cursor and move to the per-field loop. -/
def show_category_fields (d : Draft) (category : String) :
    Draft × Option ProdState :=
  let fields := get_category_fields category
  if fields.isEmpty then (d, show_product_preview d)
  else
    ({ d with
        category_fields := fields,
        current_field_index := some 0,
        field_values := [] },
      some .waiting_category_fields)

/-- The continuation of `product_price_received` after a valid price has
been stored (products.py:875-900): custom-description products go to the
preview, standard products to the category-field flow (or the category
question when no category is set).  A `none` from a preview models its
caught exception: the state stays `waiting_price` with no reprompt. -/
def price_next_step (d1 : Draft) : Draft × ProdState × Bool :=
  match d1.product_type with
  | .custom_description =>
    match show_custom_description_preview d1 with
    | some st => (d1, st, false)
    | none => (d1, .waiting_price, false)
  | .standard =>
    match d1.category with
    | none => (d1, .waiting_category, false)
    | some c =>
      if c.isEmpty then (d1, .waiting_category, false)
      else
        let r := show_category_fields d1 c
        match r.2 with
        | some st => (r.1, st, false)
        | none => (r.1, .waiting_price, false)

/-- `product_price_received` (products.py:857): the input is stripped, its
commas removed, and parsed with `float`; a parse failure, a non-positive
value or a value above 10,000,000 sends an error reprompt and leaves draft
and state unchanged; otherwise the price is stored and the flow continues
per product type. -/
def product_price_received (d : Draft) (text : String) :
    Draft × ProdState × Bool :=
  match parsePyFloat? (removeCommas (pyStrip text)) with
  | none => (d, .waiting_price, true)
  | some price =>
    if price.leRat 0 then (d, .waiting_price, true)
    else if price.gtRat 10000000 then (d, .waiting_price, true)
    else price_next_step { d with price := some price }

/-! ## Publish scheduler sweep (`src/features/scheduler.py:246`) -/

/-- The product columns the sweep consults before dispatching. The caption
and keyboard columns it also reads only shape the outgoing message, never
the schedule update, and are left to the dispatch collaborator. -/
structure ProductRow where
  id : Nat
  is_active : Bool
deriving Repr, DecidableEq

/-- One `PostSchedule` row as the sweep sees it. -/
structure Schedule where
  id : Nat
  seller_id : Nat
  product_id : Nat
  channel_username : String
  interval_days : Nat
  post_time : String
  last_posted_at : Option Nat
  next_post_at : Option Nat
deriving Repr, DecidableEq

/-- The per-schedule body of `check_and_post_scheduled` (scheduler.py:252-309):
skip when not due or the product is missing/inactive; otherwise render and
dispatch — `dispatch_ok` abstracts the whole fallible tail of the `try`
block (seller lookup, channel send) — and only on success record
`last_posted_at := now` and recompute `next_post_at`.  Any exception is
caught per schedule, leaving the row unchanged. -/
def step_schedule (now : Nat) (get_product : Nat → Option ProductRow)
    (dispatch_ok : Schedule → Bool) (schedule : Schedule) : Schedule :=
  match schedule.next_post_at with
  | none => schedule
  | some t =>
    if t ≤ now then
      match get_product schedule.product_id with
      | none => schedule
      | some product =>
        if product.is_active then
          if dispatch_ok schedule then
            { schedule with
                last_posted_at := some now,
                next_post_at := some (calculate_next_post_time
                  schedule.interval_days schedule.post_time now) }
          else schedule
        else schedule
    else schedule

/-- `check_and_post_scheduled` (scheduler.py:246): one sweep over all active
schedules; the `for` loop with its per-item `try`/`except` processes every
row independently of the others' outcomes. -/
def check_and_post_scheduled (now : Nat) (get_product : Nat → Option ProductRow)
    (dispatch_ok : Schedule → Bool) (schedules : List Schedule) : List Schedule :=
  schedules.map (step_schedule now get_product dispatch_ok)

/-! ## Like toggling (`src/database/db.py:130`) -/

/-- The like-relevant database state around one product: the set of users
whose `Engagement.liked` is true, and the product's `likes_count` column. -/
structure EngagementState where
  likers : Finset Nat
  likes_count : ℤ
deriving DecidableEq

/-- `toggle_like` (db.py:130): flip the caller's `liked` flag, then bump the
counter — incremented when the flag turns on, clamped at zero with
`max(0, likes_count - 1)` when it turns off.  Returns the new flag and the
updated state, like the source returns `(engagement.liked, product)`. -/
def toggle_like (user_id : Nat) (s : EngagementState) : Bool × EngagementState :=
  if user_id ∈ s.likers then
    (false, { likers := s.likers.erase user_id,
              likes_count := max 0 (s.likes_count - 1) })
  else
    (true, { likers := insert user_id s.likers,
             likes_count := s.likes_count + 1 })

/-- Database states reachable from a fresh product (no likes) by any
sequence of like toggles by any users — the states the running system can
put a product/engagement pair in via `toggle_like`. -/
inductive ReachableEngagement : EngagementState → Prop where
  | init : ReachableEngagement ⟨∅, 0⟩
  | toggle (u : Nat) {s : EngagementState} :
      ReachableEngagement s → ReachableEngagement (toggle_like u s).2

/-! ## Theorems -/

/-- After a valid price has been stored, every continuation branch keeps the
stored price and sends no validation reprompt. -/
theorem price_next_step_spec (d : Draft) :
    (price_next_step d).1.price = d.price ∧ (price_next_step d).2.2 = false := by
  unfold price_next_step
  cases hpt : d.product_type with
  | custom_description =>
    cases hprev : show_custom_description_preview d <;> simp
  | standard =>
    cases hc : d.category with
    | none => simp
    | some c =>
      by_cases hce : c.isEmpty <;>
        simp only [hce, if_true, if_false, show_category_fields]
      · simp
      · by_cases hf : (get_category_fields c).isEmpty <;>
          simp only [hf, if_true, if_false]
        · cases hvw : show_product_preview d <;> simp
        · simp

/-- C3: for every `intervalDays ≥ 1`, post time and current time, the
next-fire computation agrees with the spec's rule (today's occurrence of
the post time, rolled to tomorrow when not strictly in the future, plus
`intervalDays` days), is never in the past, and in particular
`(intervalDays = 2, postTime = "09:00")` evaluated at 10:00 on day `D`
yields day `D + 3` at 09:00. -/
theorem calculate_next_post_time_correct (interval_days : Nat)
    (post_time_str : String) (now : Nat) (hi : 1 ≤ interval_days) :
    calculate_next_post_time interval_days post_time_str now
        = specNextFire interval_days (parsePostTime post_time_str).1
            (parsePostTime post_time_str).2 now
      ∧ now < calculate_next_post_time interval_days post_time_str now
      ∧ ∀ day : Nat,
          calculate_next_post_time 2 "09:00" (day * 86400 + 10 * 3600)
            = (day + 3) * 86400 + 9 * 3600 := by
  refine ⟨?_, ?_, ?_⟩
  · simp only [calculate_next_post_time, specNextFire]
    split_ifs <;> omega
  · simp only [calculate_next_post_time]
    split_ifs <;> omega
  · intro day
    have hpt : parsePostTime "09:00" = (9, 0) := rfl
    simp only [calculate_next_post_time]
    rw [hpt]
    dsimp only
    split_ifs <;> omega

/-- Witness for `calculate_next_post_time_correct` at
`intervalDays = 2`, `postTime = "09:00"`, `now =` 10:00 of day 0. -/
theorem calculate_next_post_time_correct_witness :
    1 ≤ 2 ∧ 10 * 3600 < calculate_next_post_time 2 "09:00" (10 * 3600) :=
  ⟨by norm_num,
    (calculate_next_post_time_correct 2 "09:00" (10 * 3600) (by norm_num)).2.1⟩

/-- C2 (divergence witness): nine consecutive direct (non-album) photo
arrivals all get appended — `collected_photos` reaches length 9, exceeding
the advertised cap of 8; no arrival is rejected. -/
theorem collected_photos_exceed_cap :
    (((List.range 9).foldl
        (fun s i => product_photo_received s ⟨toString i, toString i⟩ none)
        ({} : AlbumState)).draft.collected_photos.length) = 9 := by
  decide

/-- A price input whose cleaned text parses to a finite value within
(0, 10,000,000] passes both guards: no reprompt, and the value is stored. -/
theorem price_accepts_finite (d : Draft) (text : String) (q : ℚ)
    (hp : parsePyFloat? (removeCommas (pyStrip text)) = some (.finite q))
    (h0 : 0 < q) (h1 : q ≤ 10000000) :
    (product_price_received d text).2.2 = false
      ∧ (product_price_received d text).1.price = some (.finite q) := by
  have hle : (PyFloat.finite q).leRat 0 = false := by
    simp only [PyFloat.leRat, decide_eq_false_iff_not, not_le]
    linarith
  have hgt : (PyFloat.finite q).gtRat 10000000 = false := by
    simp only [PyFloat.gtRat, decide_eq_false_iff_not, not_lt]
    linarith
  simp only [product_price_received, hp, hle, hgt, Bool.false_eq_true, if_false]
  exact ⟨(price_next_step_spec _).2, (price_next_step_spec _).1⟩

/-- C10: the price step strips commas before parsing, so `"2,500"` parses
as 2500, is accepted, and is stored as the draft's price with no error
reprompt, whatever the draft looked like before. -/
theorem price_comma_stripped (d : Draft) :
    parsePyFloat? (removeCommas (pyStrip "2,500")) = some (.finite 2500)
      ∧ (product_price_received d "2,500").1.price = some (.finite 2500)
      ∧ (product_price_received d "2,500").2.2 = false := by
  have h0 : parsePyFloat? (removeCommas (pyStrip "2,500"))
      = some (.finite ((2500 : Nat) : ℚ)) := rfl
  have hp : parsePyFloat? (removeCommas (pyStrip "2,500"))
      = some (.finite 2500) := by
    rw [h0]; norm_num
  obtain ⟨hflag, hprice⟩ :=
    price_accepts_finite d "2,500" 2500 hp (by norm_num) (by norm_num)
  exact ⟨hp, hprice, hflag⟩

/-- C6 (divergence witness): the title and description rules hold as
claimed — accepted iff the stripped length is within [3, 200] resp.
[0, 1000], every rejection reissuing the prompt with the draft and state
untouched — and every price reprompt also leaves the draft and state
unchanged, with an accepted price stored exactly as parsed.  But price
acceptance is not "iff it parses as a positive number ≤ 10,000,000": the
input `"nan"` parses to NaN, which fails both guards' conditions
(`NaN <= 0` and `NaN > 10000000` are both false in Python), so NaN is
accepted and stored as the price although it is not a positive number.
`"inf"` is caught by the too-high guard, and the exponent and underscore
forms `"1e3"` and `"2_500"` are accepted with their numeric values. -/
theorem text_field_validation_nan_bug (d : Draft) (text : String) :
    ((product_title_received d text).2.2 = false ↔
        3 ≤ (pyStrip text).length ∧ (pyStrip text).length ≤ 200)
      ∧ ((product_title_received d text).2.2 = true →
          product_title_received d text = (d, .waiting_title, true))
      ∧ ((product_title_received d text).2.2 = false →
          (product_title_received d text).1.title = some (pyStrip text))
      ∧ ((product_description_received d text).2.2 = false ↔
          (pyStrip text).length ≤ 1000)
      ∧ ((product_description_received d text).2.2 = true →
          product_description_received d text = (d, .waiting_description, true))
      ∧ ((product_description_received d text).2.2 = false →
          (product_description_received d text).1.description = some (pyStrip text))
      ∧ ((product_price_received d text).2.2 = true →
          product_price_received d text = (d, .waiting_price, true))
      ∧ ((product_price_received d text).2.2 = false →
          (product_price_received d text).1.price
            = parsePyFloat? (removeCommas (pyStrip text)))
      ∧ parsePyFloat? (removeCommas (pyStrip "nan")) = some PyFloat.nan
      ∧ (product_price_received d "nan").2.2 = false
      ∧ (product_price_received d "nan").1.price = some PyFloat.nan
      ∧ product_price_received d "inf" = (d, .waiting_price, true)
      ∧ ((product_price_received d "1e3").2.2 = false
          ∧ (product_price_received d "1e3").1.price = some (.finite 1000))
      ∧ ((product_price_received d "2_500").2.2 = false
          ∧ (product_price_received d "2_500").1.price = some (.finite 2500)) := by
  have hnan : parsePyFloat? (removeCommas (pyStrip "nan")) = some PyFloat.nan := rfl
  have hnanle : PyFloat.nan.leRat 0 = false := rfl
  have hnangt : PyFloat.nan.gtRat 10000000 = false := rfl
  have hnanrun : product_price_received d "nan"
      = price_next_step { d with price := some PyFloat.nan } := by
    simp only [product_price_received, hnan, hnanle, hnangt, Bool.false_eq_true,
      if_false]
  have h13 : parsePyFloat? (removeCommas (pyStrip "1e3"))
      = some (.finite (((1 : Nat) : ℚ) * 10 ^ (3 : Nat))) := rfl
  have hp13 : parsePyFloat? (removeCommas (pyStrip "1e3"))
      = some (.finite 1000) := by
    rw [h13]; norm_num
  have h25 : parsePyFloat? (removeCommas (pyStrip "2_500"))
      = some (.finite ((2500 : Nat) : ℚ)) := rfl
  have hp25 : parsePyFloat? (removeCommas (pyStrip "2_500"))
      = some (.finite 2500) := by
    rw [h25]; norm_num
  refine ⟨?_, ?_, ?_, ?_, ?_, ?_, ?_, ?_, hnan, ?_, ?_, ?_, ?_, ?_⟩
  · simp only [product_title_received]
    split_ifs with h1 h2
    · simp; omega
    · simp; omega
    · cases d.product_type <;> simp <;> omega
  · simp only [product_title_received]
    split_ifs <;> cases d.product_type <;> simp
  · simp only [product_title_received]
    split_ifs <;> cases d.product_type <;> simp
  · simp only [product_description_received]
    split_ifs with h1
    · simp; omega
    · cases d.product_type <;> simp <;> omega
  · simp only [product_description_received]
    split_ifs <;> cases d.product_type <;> simp
  · simp only [product_description_received]
    split_ifs <;> cases d.product_type <;> simp
  · simp only [product_price_received]
    cases hq : parsePyFloat? (removeCommas (pyStrip text)) with
    | none => simp
    | some q =>
      dsimp only
      split_ifs with h1 h2
      · simp
      · simp
      · have hflag := (price_next_step_spec { d with price := some q }).2
        intro hcontra
        rw [hflag] at hcontra
        cases hcontra
  · simp only [product_price_received]
    cases hq : parsePyFloat? (removeCommas (pyStrip text)) with
    | none => simp
    | some q =>
      dsimp only
      split_ifs with h1 h2
      · simp
      · simp
      · intro _
        exact (price_next_step_spec { d with price := some q }).1
  · rw [hnanrun]
    exact (price_next_step_spec _).2
  · rw [hnanrun]
    exact (price_next_step_spec _).1
  · have hinf : parsePyFloat? (removeCommas (pyStrip "inf")) = some PyFloat.inf := rfl
    simp [product_price_received, hinf, PyFloat.leRat, PyFloat.gtRat]
  · have h := price_accepts_finite d "1e3" 1000 hp13 (by norm_num) (by norm_num)
    exact h
  · have h := price_accepts_finite d "2_500" 2500 hp25 (by norm_num) (by norm_num)
    exact h

/-- Witness for `text_field_validation_nan_bug`: a 2-character title is
rejected unchanged, a small description is stored, a non-numeric price is
rejected unchanged. -/
theorem text_field_validation_nan_bug_witness :
    product_title_received {} "ab" = ({}, .waiting_title, true)
      ∧ (product_description_received {} "hello").1.description = some "hello"
      ∧ product_price_received {} "abc" = ({}, .waiting_price, true) :=
  ⟨(text_field_validation_nan_bug {} "ab").2.1 (by decide),
    by
      have h := (text_field_validation_nan_bug {} "hello").2.2.2.2.2.1 (by decide)
      simpa using h,
    (text_field_validation_nan_bug {} "abc").2.2.2.2.2.2.1 (by decide)⟩

/-- C7: main-image selection with an index outside `[0, count)` shows the
invalid-selection notice and leaves draft and state unchanged; a valid index
records `main_image_index` plus the stamped/unstamped main-image paths and
advances to the description step for custom-description products, the title
step for standard products. -/
theorem main_image_selection_correct (d : Draft) (main_index : ℤ) :
    (main_index < 0 ∨ (d.all_images.length : ℤ) ≤ main_index →
        handle_main_image_selection d main_index = (d, .waiting_main_image, true))
      ∧ (0 ≤ main_index → main_index < (d.all_images.length : ℤ) →
          d.all_original_images.length = d.all_images.length →
          (handle_main_image_selection d main_index).2.2 = false
            ∧ (handle_main_image_selection d main_index).1.main_image_index
                = some main_index.toNat
            ∧ (handle_main_image_selection d main_index).1.photo_path
                = some (d.all_images.getD main_index.toNat "")
            ∧ (handle_main_image_selection d main_index).1.original_photo_path
                = some (d.all_original_images.getD main_index.toNat "")
            ∧ (handle_main_image_selection d main_index).2.1
                = (if d.product_type = .custom_description then
                    ProdState.waiting_description
                   else ProdState.waiting_title)) := by
  constructor
  · intro h
    simp only [handle_main_image_selection, if_pos h]
  · intro h1 h2 _
    have hcond : ¬(main_index < 0 ∨ (d.all_images.length : ℤ) ≤ main_index) := by
      push_neg
      exact ⟨h1, h2⟩
    simp only [handle_main_image_selection, if_neg hcond]
    cases hpt : d.product_type <;> simp [hpt]

/-- Witness for `main_image_selection_correct` on a two-image draft: index 5
is rejected unchanged, index 1 selects the second image pair. -/
theorem main_image_selection_correct_witness :
    handle_main_image_selection
        { all_images := ["a", "b"], all_original_images := ["x", "y"] } 5
      = ({ all_images := ["a", "b"], all_original_images := ["x", "y"] },
          .waiting_main_image, true)
      ∧ (handle_main_image_selection
          { all_images := ["a", "b"], all_original_images := ["x", "y"] } 1).1.photo_path
        = some "b" :=
  ⟨(main_image_selection_correct _ 5).1 (Or.inr (by norm_num)),
    by
      have h := ((main_image_selection_correct
        { all_images := ["a", "b"], all_original_images := ["x", "y"] } 1).2
        (by norm_num) (by norm_num) rfl).2.2.1
      simpa using h⟩

/-- C8: a custom-description product rendered with `for_channel = true`
yields exactly the escaped description — independent of title and price.
Rendered with `for_channel = false` the caption is, for every combination
of present and absent fields, the concatenation of: the title header iff a
title is present, the price line iff a price is present, the escaped
description always, and the seller footer iff any seller info is present —
spelled out for the all-present case, the two mixed cases (title without
price, price without title) and the all-absent collapse. -/
theorem custom_caption_rendering (title description : Option String)
    (price : Option ℚ) (category seller_name seller_phone : Option String)
    (category_fields : List (String × String)) :
    format_product_caption title description price category seller_name
        seller_phone .custom_description category_fields true
      = escape_markdown description
      ∧ format_product_caption title description price category seller_name
          seller_phone .custom_description category_fields false
        = (if truthyStr title then
            "🛍️ **" ++ escape_markdown title ++ "**\n" ++ "━━━━━━━━━━━━━━━━━━━━\n\n"
           else "")
          ++ (if truthyNum price then
              "💰 **" ++ escape_markdown (some (format_price (price.getD 0))) ++ "**\n\n"
            else "")
          ++ escape_markdown description
          ++ (if truthyStr seller_name || truthyStr seller_phone then
              "\n\n"
              ++ (if truthyStr seller_name then
                  "👤 **" ++ escape_markdown seller_name ++ "**\n" else "")
              ++ (if truthyStr seller_phone then
                  "📞 " ++ escape_markdown seller_phone ++ "\n" else "")
            else "")
      ∧ (truthyStr title = true → truthyNum price = true →
          truthyStr seller_name = true ∨ truthyStr seller_phone = true →
          format_product_caption title description price category seller_name
              seller_phone .custom_description category_fields false
            = ("🛍️ **" ++ escape_markdown title ++ "**\n" ++ "━━━━━━━━━━━━━━━━━━━━\n\n")
              ++ ("💰 **" ++ escape_markdown (some (format_price (price.getD 0))) ++ "**\n\n")
              ++ escape_markdown description
              ++ ("\n\n"
                ++ (if truthyStr seller_name then
                    "👤 **" ++ escape_markdown seller_name ++ "**\n" else "")
                ++ (if truthyStr seller_phone then
                    "📞 " ++ escape_markdown seller_phone ++ "\n" else "")))
      ∧ (truthyStr title = true → truthyNum price = false →
          truthyStr seller_name = false → truthyStr seller_phone = false →
          format_product_caption title description price category seller_name
              seller_phone .custom_description category_fields false
            = "🛍️ **" ++ escape_markdown title ++ "**\n" ++ "━━━━━━━━━━━━━━━━━━━━\n\n"
              ++ escape_markdown description)
      ∧ (truthyStr title = false → truthyNum price = true →
          truthyStr seller_name = false → truthyStr seller_phone = false →
          format_product_caption title description price category seller_name
              seller_phone .custom_description category_fields false
            = "💰 **" ++ escape_markdown (some (format_price (price.getD 0))) ++ "**\n\n"
              ++ escape_markdown description)
      ∧ (truthyStr title = false → truthyNum price = false →
          truthyStr seller_name = false → truthyStr seller_phone = false →
          format_product_caption title description price category seller_name
              seller_phone .custom_description category_fields false
            = escape_markdown description) := by
  refine ⟨rfl, rfl, ?_, ?_, ?_, ?_⟩
  · intro ht hp hs
    have hor : (truthyStr seller_name || truthyStr seller_phone) = true := by
      rcases hs with h | h <;> simp [h]
    simp only [format_product_caption, ht, hp, hor, if_true]
    rfl
  · intro ht hp hn hh
    simp [format_product_caption, ht, hp, hn, hh]
  · intro ht hp hn hh
    simp [format_product_caption, ht, hp, hn, hh]
  · intro ht hp hn hh
    simp [format_product_caption, ht, hp, hn, hh]

/-- Witness for `custom_caption_rendering` at a mixed-presence product:
title present, price and seller info absent. -/
theorem custom_caption_rendering_witness :
    format_product_caption (some "T") (some "D") none none none none
        .custom_description [] false
      = "🛍️ **" ++ escape_markdown (some "T") ++ "**\n" ++ "━━━━━━━━━━━━━━━━━━━━\n\n"
        ++ escape_markdown (some "D") :=
  (custom_caption_rendering (some "T") (some "D") none none none none []).2.2.2.1
    (by decide) rfl rfl rfl

/-- C5: the sweep processes every schedule independently (the result at
each position depends only on that schedule), a failed dispatch leaves the
schedule — in particular its `next_post_at` — unchanged, and a due, active,
successfully-dispatched schedule gets `last_posted_at := now` and a freshly
computed `next_post_at`. -/
theorem scheduler_sweep_isolation (now : Nat) (get_product : Nat → Option ProductRow)
    (dispatch_ok : Schedule → Bool) (schedules : List Schedule) :
    (∀ i : Nat, (check_and_post_scheduled now get_product dispatch_ok schedules).get? i
        = (schedules.get? i).map (step_schedule now get_product dispatch_ok))
      ∧ (∀ schedule : Schedule, dispatch_ok schedule = false →
          step_schedule now get_product dispatch_ok schedule = schedule)
      ∧ (∀ (schedule : Schedule) (t : Nat) (product : ProductRow),
          schedule.next_post_at = some t → t ≤ now →
          get_product schedule.product_id = some product →
          product.is_active = true →
          dispatch_ok schedule = true →
          step_schedule now get_product dispatch_ok schedule
            = { schedule with
                last_posted_at := some now,
                next_post_at := some (calculate_next_post_time
                  schedule.interval_days schedule.post_time now) }) := by
  refine ⟨?_, ?_, ?_⟩
  · intro i
    simp [check_and_post_scheduled, List.getElem?_map]
  · intro schedule hfail
    unfold step_schedule
    cases hnp : schedule.next_post_at with
    | none => rfl
    | some t =>
      dsimp only
      by_cases hd : t ≤ now
      · simp only [hd, if_true]
        cases hp : get_product schedule.product_id with
        | none => rfl
        | some product =>
          dsimp only
          by_cases ha : product.is_active <;> simp [ha, hfail]
      · simp [hd]
  · intro schedule t product hnp hd hp ha hok
    simp [step_schedule, hnp, hd, hp, ha, hok]

/-- Witness for `scheduler_sweep_isolation`: two due schedules over active
products; dispatch fails for id 1 and succeeds for id 2 — the first row
survives unchanged, the second advances. -/
theorem scheduler_sweep_isolation_witness :
    step_schedule 100 (fun pid => some ⟨pid, true⟩) (fun s => s.id == 2)
        ⟨1, 10, 100, "@c", 2, "09:00", none, some 50⟩
      = ⟨1, 10, 100, "@c", 2, "09:00", none, some 50⟩
      ∧ step_schedule 100 (fun pid => some ⟨pid, true⟩) (fun s => s.id == 2)
          ⟨2, 10, 101, "@c", 2, "09:00", none, some 60⟩
        = ⟨2, 10, 101, "@c", 2, "09:00", some 100,
            some (calculate_next_post_time 2 "09:00" 100)⟩ :=
  ⟨(scheduler_sweep_isolation 100 (fun pid => some ⟨pid, true⟩)
      (fun s => s.id == 2) []).2.1 _ rfl,
    (scheduler_sweep_isolation 100 (fun pid => some ⟨pid, true⟩)
      (fun s => s.id == 2) []).2.2 _ 60 ⟨101, true⟩ rfl (by norm_num) rfl rfl rfl⟩

/-- In every state reachable by like toggles, the counter equals the number
of likers (`max(0, ...)` never actually clips). -/
theorem reachable_likes_count (s : EngagementState)
    (h : ReachableEngagement s) : s.likes_count = s.likers.card := by
  induction h with
  | init => simp
  | @toggle u s hs ih =>
    by_cases hm : u ∈ s.likers
    · have hpos : 0 < s.likers.card := Finset.card_pos.mpr ⟨u, hm⟩
      simp only [toggle_like, hm, if_true]
      rw [ih, Finset.card_erase_of_mem hm, max_def]
      split_ifs <;> omega
    · simp only [toggle_like, hm, if_false]
      rw [ih, Finset.card_insert_of_not_mem hm]
      push_cast
      ring

/-- C9: from any state the running system can reach, toggling like twice
restores both the product's `likes_count` and the user's `liked` flag (the
whole engagement state) to their original values. -/
theorem toggle_like_involutive (s : EngagementState) (u : Nat)
    (h : ReachableEngagement s) :
    (toggle_like u (toggle_like u s).2).2 = s := by
  obtain ⟨likers, likes_count⟩ := s
  have hc := reachable_likes_count _ h
  dsimp only at hc
  by_cases hm : u ∈ likers
  · have hpos : 0 < likers.card := Finset.card_pos.mpr ⟨u, hm⟩
    simp only [toggle_like, hm, if_true, Finset.mem_erase, ne_eq,
      not_true_eq_false, false_and, if_false]
    simp only [EngagementState.mk.injEq]
    refine ⟨Finset.insert_erase hm, ?_⟩
    rw [hc, max_def]
    split_ifs <;> omega
  · simp only [toggle_like, hm, if_false, Finset.mem_insert_self, if_true]
    simp only [EngagementState.mk.injEq]
    refine ⟨Finset.erase_insert hm, ?_⟩
    rw [hc, max_def]
    split_ifs <;> omega

/-- Witness for `toggle_like_involutive`: double toggle by user 7 on a
fresh product returns to the fresh state. -/
theorem toggle_like_involutive_witness :
    (toggle_like 7 (toggle_like 7 (⟨∅, 0⟩ : EngagementState)).2).2
      = (⟨∅, 0⟩ : EngagementState) :=
  toggle_like_involutive ⟨∅, 0⟩ 7 ReachableEngagement.init

/-- When every watermark result is a nonempty path to an existing file, the
keep-if-valid filter of `process_multiple_photos` keeps every photo. -/
theorem filter_watermarked_total (wm : String → String) (exi : String → Bool)
    (hwm : ∀ p, (wm p).isEmpty = false) (hexi : ∀ p, exi p = true)
    (l : List CollectedPhoto) :
    (l.filterMap (fun pd =>
        let watermarked_path := wm pd.original_path
        if !watermarked_path.isEmpty && exi watermarked_path then
          some (watermarked_path, pd.original_path)
        else none))
      = l.map (fun pd => (wm pd.original_path, pd.original_path)) := by
  induction l with
  | nil => rfl
  | cons pd rest ih =>
    simp only [List.filterMap_cons, List.map_cons, hwm pd.original_path,
      hexi (wm pd.original_path), Bool.not_false, Bool.and_self, if_true, ih]

/-- C4 (divergence witness): done-adding-photos with zero collected photos
raises only the empty-album alert, and with more than one photo it stores
the stamped/unstamped lists and enters main-image selection — but with
exactly one collected photo it always ends in the caught-exception error
alert (the callback's own message carries no photo, so
`process_single_photo` raises before any state change), instead of
advancing to the text-field phase. -/
theorem photos_done_single_photo_bug (wm : String → String) (exi : String → Bool)
    (d : Draft) :
    (d.collected_photos.isEmpty = true →
        handle_photos_done none wm exi d = .emptyAlbumAlert)
      ∧ (d.collected_photos.length = 1 →
          handle_photos_done none wm exi d = .errorAlert)
      ∧ (1 < d.collected_photos.length →
          (∀ p, (wm p).isEmpty = false) → (∀ p, exi p = true) →
          handle_photos_done none wm exi d
            = .ok { d with
                all_images := d.collected_photos.map (fun pd => wm pd.original_path),
                all_original_images :=
                  d.collected_photos.map (fun pd => pd.original_path) }
              .waiting_main_image) := by
  refine ⟨?_, ?_, ?_⟩
  · intro hempty
    simp [handle_photos_done, hempty]
  · intro hone
    have hne : d.collected_photos.isEmpty = false := by
      cases hcp : d.collected_photos with
      | nil => rw [hcp] at hone; cases hone
      | cons a l => rfl
    simp [handle_photos_done, hne, hone, process_single_photo]
  · intro hgt hwm hexi
    have hne : d.collected_photos.isEmpty = false := by
      cases hcp : d.collected_photos with
      | nil => rw [hcp] at hgt; cases hgt
      | cons a l => rfl
    have hnotone : ¬(d.collected_photos.length = 1) := by omega
    have hmap := filter_watermarked_total wm exi hwm hexi d.collected_photos
    have hpairs : (d.collected_photos.map
        (fun pd => (wm pd.original_path, pd.original_path))).isEmpty = false := by
      cases hcp : d.collected_photos with
      | nil => rw [hcp] at hgt; cases hgt
      | cons a l => rfl
    simp only [handle_photos_done, hne, Bool.false_eq_true, if_false, hnotone,
      process_multiple_photos, hmap, hpairs]
    simp [List.map_map, Function.comp]

/-- Witness for `photos_done_single_photo_bug` at a one-photo draft, an
empty draft and a two-photo draft. -/
theorem photos_done_single_photo_bug_witness :
    handle_photos_done none (fun _ => "w") (fun _ => true)
        { collected_photos := [⟨"p1", "f1", none⟩] } = .errorAlert
      ∧ handle_photos_done none (fun _ => "w") (fun _ => true)
          {} = .emptyAlbumAlert
      ∧ handle_photos_done none (fun _ => "w") (fun _ => true)
          { collected_photos := [⟨"p1", "f1", none⟩, ⟨"p2", "f2", none⟩] }
        = .ok { collected_photos := [⟨"p1", "f1", none⟩, ⟨"p2", "f2", none⟩],
                all_images := ["w", "w"],
                all_original_images := ["p1", "p2"] } .waiting_main_image :=
  ⟨(photos_done_single_photo_bug (fun _ => "w") (fun _ => true)
      { collected_photos := [⟨"p1", "f1", none⟩] }).2.1 rfl,
    (photos_done_single_photo_bug (fun _ => "w") (fun _ => true)
      {}).1 rfl,
    by
      have h := (photos_done_single_photo_bug (fun _ => "w")
        (fun _ => true)
        { collected_photos := [⟨"p1", "f1", none⟩, ⟨"p2", "f2", none⟩] }).2.2
        (by norm_num) (fun p => rfl) (fun p => rfl)
      simpa using h⟩

/-- Appending to a group's buffer entry: the looked-up list grows by the
photo (`[]` when the key was absent, Python's fresh-key case). -/
theorem bufGet_bufAppend (buf : List (String × List BufferedPhoto))
    (gid : String) (p : BufferedPhoto) :
    bufGet (bufAppend buf gid p) gid = some ((bufGet buf gid).getD [] ++ [p]) := by
  induction buf with
  | nil => simp [bufGet, bufAppend, List.lookup]
  | cons kv rest ih =>
    obtain ⟨k, ps⟩ := kv
    by_cases hk : k = gid
    · subst hk
      simp [bufGet, bufAppend, List.lookup]
    · have hne : (gid == k) = false := by
        simp [beq_iff_eq]
        exact fun hcontra => hk hcontra.symm
      simp only [bufGet, bufAppend, if_neg hk, List.lookup, hne]
      exact ih

/-- After `del album_buffer[gid]`, looking the id up finds nothing. -/
theorem bufGet_bufErase (buf : List (String × List BufferedPhoto)) (gid : String) :
    bufGet (bufErase buf gid) gid = none := by
  induction buf with
  | nil => rfl
  | cons kv rest ih =>
    obtain ⟨k, ps⟩ := kv
    by_cases hk : k = gid
    · subst hk
      simpa [bufErase, List.filter] using ih
    · have hkb : (k != gid) = true := by simp [hk]
      have hne : (gid == k) = false := by
        simp [beq_iff_eq]
        exact fun hcontra => hk hcontra.symm
      simp only [bufErase, List.filter, hkb] at ih ⊢
      simp only [bufGet, List.lookup, hne]
      exact ih

/-- Arming the completion task is idempotent: a second add for the same
batch id changes nothing. -/
theorem schedAdd_idem (s : List String) (gid : String) :
    schedAdd (schedAdd s gid) gid = schedAdd s gid := by
  unfold schedAdd
  by_cases h : gid ∈ s
  · simp [h]
  · simp [h]

/-- Discarding the scheduled flag is idempotent. -/
theorem schedDiscard_idem (s : List String) (gid : String) :
    schedDiscard (schedDiscard s gid) gid = schedDiscard s gid := by
  unfold schedDiscard
  induction s with
  | nil => rfl
  | cons g rest ih =>
    by_cases hg : g = gid
    · simp [hg, ih]
    · simp [hg, ih]

/-- Effect of a run of arrivals for one batch id: the draft is untouched,
the task is armed (once), and the group's buffer holds the prior photos
followed by the new ones in arrival order. -/
theorem albumArrivals_spec (gid : String) (ps : List BufferedPhoto) :
    ∀ s : AlbumState,
      (albumArrivals s gid ps).draft = s.draft
        ∧ (albumArrivals s gid ps).album_tasks_scheduled
            = (if ps.isEmpty then s.album_tasks_scheduled
               else schedAdd s.album_tasks_scheduled gid)
        ∧ bufGet (albumArrivals s gid ps).album_buffer gid
            = (if ps.isEmpty then bufGet s.album_buffer gid
               else some ((bufGet s.album_buffer gid).getD [] ++ ps)) := by
  induction ps with
  | nil =>
    intro s
    simp [albumArrivals]
  | cons p ps ih =>
    intro s
    have hstep : albumArrivals s gid (p :: ps)
        = albumArrivals (product_photo_received s p (some gid)) gid ps := rfl
    obtain ⟨ih1, ih2, ih3⟩ := ih (product_photo_received s p (some gid))
    rw [hstep]
    refine ⟨?_, ?_, ?_⟩
    · rw [ih1]
      rfl
    · rw [ih2]
      by_cases hps : ps.isEmpty <;>
        simp [hps, product_photo_received, schedAdd_idem]
    · rw [ih3]
      by_cases hps : ps.isEmpty
      · have : ps = [] := by simpa using hps
        subst this
        simp [product_photo_received, bufGet_bufAppend]
      · simp [hps, product_photo_received, bufGet_bufAppend]

/-- C1: for every batch id and every nonempty run of photo arrivals sharing
it (any count, any arrival order), starting from any state with nothing yet
buffered for that id: the arrivals merge nothing by themselves and arm
exactly one completion task; the task's single fire performs the one merge,
appending all the photos to the draft's `collected_photos` in arrival
order; and a second fire for the same batch id changes nothing at all. -/
theorem album_batch_single_merge (s0 : AlbumState) (gid : String)
    (ps : List BufferedPhoto) (hne : ps ≠ [])
    (hfresh : bufGet s0.album_buffer gid = none) :
    (albumArrivals s0 gid ps).draft = s0.draft
      ∧ (albumArrivals s0 gid ps).album_tasks_scheduled
          = schedAdd s0.album_tasks_scheduled gid
      ∧ (process_album_later (albumArrivals s0 gid ps) gid).draft.collected_photos
          = s0.draft.collected_photos
            ++ ps.map (fun p => ⟨p.original_path, p.file_id, some gid⟩)
      ∧ process_album_later (process_album_later (albumArrivals s0 gid ps) gid) gid
          = process_album_later (albumArrivals s0 gid ps) gid := by
  obtain ⟨h1, h2, h3⟩ := albumArrivals_spec gid ps s0
  have hpsne : ps.isEmpty = false := by
    cases ps with
    | nil => exact absurd rfl hne
    | cons a l => rfl
  rw [hpsne] at h2 h3
  simp only [Bool.false_eq_true, if_false] at h2 h3
  rw [hfresh] at h3
  simp only [Option.getD_none, List.nil_append] at h3
  have hfire : process_album_later (albumArrivals s0 gid ps) gid
      = { album_buffer := bufErase (albumArrivals s0 gid ps).album_buffer gid,
          album_tasks_scheduled :=
            schedDiscard (albumArrivals s0 gid ps).album_tasks_scheduled gid,
          draft := { (albumArrivals s0 gid ps).draft with
            collected_photos := (albumArrivals s0 gid ps).draft.collected_photos ++
              ps.map (fun p => ⟨p.original_path, p.file_id, some gid⟩) } } := by
    simp only [process_album_later, h3, hpsne]
    rfl
  refine ⟨h1, h2, ?_, ?_⟩
  · rw [hfire, h1]
  · rw [hfire]
    simp only [process_album_later, bufGet_bufErase]
    rw [schedDiscard_idem]

/-- Witness for `album_batch_single_merge`: a two-photo album from the
empty state. -/
theorem album_batch_single_merge_witness :
    (albumArrivals {} "g" [⟨"a", "fa"⟩, ⟨"b", "fb"⟩]).draft
        = ({} : AlbumState).draft
      ∧ (albumArrivals {} "g" [⟨"a", "fa"⟩, ⟨"b", "fb"⟩]).album_tasks_scheduled
          = schedAdd ({} : AlbumState).album_tasks_scheduled "g"
      ∧ (process_album_later
            (albumArrivals {} "g" [⟨"a", "fa"⟩, ⟨"b", "fb"⟩]) "g").draft.collected_photos
          = ({} : AlbumState).draft.collected_photos
            ++ ([⟨"a", "fa"⟩, ⟨"b", "fb"⟩] : List BufferedPhoto).map
              (fun p => ⟨p.original_path, p.file_id, some "g"⟩)
      ∧ process_album_later
            (process_album_later
              (albumArrivals {} "g" [⟨"a", "fa"⟩, ⟨"b", "fb"⟩]) "g") "g"
          = process_album_later
              (albumArrivals {} "g" [⟨"a", "fa"⟩, ⟨"b", "fb"⟩]) "g" :=
  album_batch_single_merge {} "g" [⟨"a", "fa"⟩, ⟨"b", "fb"⟩] (by decide) rfl

end EthioStore
